import Mathlib

/-
Verification of the PNG-to-black-and-white-BMP conversion script
(`png_to_bw_bmp.py`).

The script is a linear pipeline:
  1. load the PNG at the fixed path "prism_logo.png";
  2. `img.convert("L")` — 8-bit grayscale conversion (Pillow uses the
     ITU-R 601-2 luma transform, computed in integer arithmetic as
     (r * 19595 + g * 38470 + b * 7471) >> 16; the three weights sum to
     65536, and conversion from mode "L" is the identity);
  3. `.point(lambda x: 0 if x < 128 else 255, '1')` — per-pixel
     threshold to the two levels 0 (black) and 255 (white);
  4. save the result to the fixed path "prism_logo_bw.bmp"; a load
     failure is uncaught and aborts the process before any write.

The embedding below models the image buffers, the two conversion steps,
and the script's run over an abstract file system (path to decoded file
content), so that the load-failure and determinism behaviour of the
whole run can be stated.
-/

namespace PngToBwBmp

/-- Pixel of the decoded in-memory image buffer, in one of the color
modes the script may receive from the loader: RGB, RGBA, or 8-bit
grayscale ("L").  Channel values are naturals, meant to lie in 0..255. -/
inductive Pixel where
  | rgb (r g b : Nat) : Pixel
  | rgba (r g b a : Nat) : Pixel
  | gray (v : Nat) : Pixel
deriving DecidableEq, Repr

/-- Decoded input image buffer: width, height and row-major pixels. -/
structure Img where
  width : Nat
  height : Nat
  pixels : List Pixel
deriving DecidableEq, Repr

/-- Single-channel image buffer, used for the result of `convert("L")`
and for the bilevel result of `.point(..., '1')` (whose pixel values,
as Pillow reports them, are the bytes 0 and 255). -/
structure GrayImg where
  width : Nat
  height : Nat
  pixels : List Nat
deriving DecidableEq, Repr

/-- The ITU-R 601-2 luma transform as Pillow computes it in `convert.c`:
`L24(rgb) >> 16` with `L24(rgb) = r * 19595 + g * 38470 + b * 7471`.
The weights sum to 65536, so inputs in 0..255 give outputs in 0..255. -/
def luma (r g b : Nat) : Nat :=
  (r * 19595 + g * 38470 + b * 7471) / 65536

/-- Per-pixel effect of `img.convert("L")`: RGB and RGBA pixels go
through the luma transform (alpha is ignored), and a pixel that is
already 8-bit grayscale is unchanged. -/
def toGray : Pixel → Nat
  | Pixel.rgb r g b => luma r g b
  | Pixel.rgba r g b _ => luma r g b
  | Pixel.gray v => v

/-- `img.convert("L")`: map every pixel to its luminance; dimensions are
untouched. -/
def convertL (img : Img) : GrayImg :=
  { width := img.width, height := img.height, pixels := img.pixels.map toGray }

/-- The point lambda of the script: `0 if x < 128 else 255`. -/
def threshold (x : Nat) : Nat :=
  if x < 128 then 0 else 255

/-- `.point(lambda x: 0 if x < 128 else 255, '1')`: apply the lookup
function to every pixel of the grayscale buffer; dimensions are
untouched.  The lambda only ever produces 0 and 255, which mode "1"
stores unchanged. -/
def pointThreshold (g : GrayImg) : GrayImg :=
  { width := g.width, height := g.height, pixels := g.pixels.map threshold }

/-- The whole conversion as the script composes it:
`img.convert("L").point(lambda x: 0 if x < 128 else 255, '1')`.
The resize step between thresholding and saving is commented out in the
source, so the pipeline has no resize. -/
def pipeline (img : Img) : GrayImg :=
  pointThreshold (convertL img)

/-- The fixed input path literal of the script. -/
def inputPath : String := "prism_logo.png"

/-- The fixed output path literal of the script. -/
def outputPath : String := "prism_logo_bw.bmp"

/-- Content of a file as the script sees it: either a decodable PNG or
some other (non-PNG) content, here represented by a saved bilevel BMP. -/
inductive FileData where
  | png (img : Img) : FileData
  | bmp (img : GrayImg) : FileData
deriving DecidableEq, Repr

/-- What `Image.open` succeeds on: a present file holding a valid PNG.
A missing file (none) or non-PNG content makes the load fail. -/
def decodePng : Option FileData → Option Img
  | some (FileData.png img) => some img
  | _ => none

/-- One run of the script over an abstract file system (a map from
paths to file contents).  Returns the process outcome (ok, or the
uncaught load error) together with the file system after the run.  On a
load failure the error propagates before `bw.save` runs, so the file
system is returned unchanged; on success the pipeline result is written
to the fixed output path, overwriting whatever was there. -/
def runScript (fs : String → Option FileData) :
    Except String Unit × (String → Option FileData) :=
  match decodePng (fs inputPath) with
  | none => (Except.error "cannot identify image file", fs)
  | some img =>
      (Except.ok (),
        fun p => if p = outputPath then some (FileData.bmp (pipeline img)) else fs p)

/-- Validity of a decoded pixel: every channel fits in a byte. -/
def pixelValid : Pixel → Prop
  | Pixel.rgb r g b => r ≤ 255 ∧ g ≤ 255 ∧ b ≤ 255
  | Pixel.rgba r g b a => r ≤ 255 ∧ g ≤ 255 ∧ b ≤ 255 ∧ a ≤ 255
  | Pixel.gray v => v ≤ 255

instance : DecidablePred pixelValid := by
  intro p
  cases p <;> unfold pixelValid <;> infer_instance

/-- Helper: the threshold function only produces 0 and 255. -/
theorem threshold_eq_zero_or_255 (x : Nat) : threshold x = 0 ∨ threshold x = 255 := by
  unfold threshold
  by_cases h : x < 128 <;> simp [h]

/-- Helper: applying the threshold twice is the same as applying it once. -/
theorem threshold_threshold (x : Nat) : threshold (threshold x) = threshold x := by
  rcases threshold_eq_zero_or_255 x with h | h <;> rw [h] <;> rfl

/-- Helper: the luma transform of byte channels fits in a byte. -/
theorem luma_le_255 (r g b : Nat) (hr : r ≤ 255) (hg : g ≤ 255) (hb : b ≤ 255) :
    luma r g b ≤ 255 := by
  have hsum : r * 19595 + g * 38470 + b * 7471 ≤ 16711680 := by omega
  calc luma r g b = (r * 19595 + g * 38470 + b * 7471) / 65536 := rfl
    _ ≤ 16711680 / 65536 := Nat.div_le_div_right hsum
    _ = 255 := by norm_num

/-- Concrete input image used to instantiate theorems with hypotheses:
a single gray pixel of value 200. -/
def imgEx : Img := ⟨1, 1, [Pixel.gray 200]⟩

/-- Concrete all-white input image used to instantiate theorems. -/
def imgWhite : Img := ⟨1, 1, [Pixel.gray 255]⟩

/-- Concrete file system holding a valid PNG at the input path. -/
def fsEx : String → Option FileData :=
  fun p => if p = inputPath then some (FileData.png imgEx) else none

/-- Concrete empty file system: the input file is absent. -/
def fsEmpty : String → Option FileData :=
  fun _ => none

/-- C1: the threshold step maps a grayscale value x to 0 (black) when
x < 128 and to 255 (white) otherwise; in particular 128 maps to white,
and the output is black exactly when x is strictly below 128. -/
theorem threshold_black_iff (x : Nat) :
    threshold x = (if x < 128 then 0 else 255) ∧
      threshold 128 = 255 ∧
      (threshold x = 0 ↔ x < 128) := by
  refine ⟨rfl, rfl, ?_⟩
  unfold threshold
  by_cases h : x < 128 <;> simp [h]

/-- C2: on a 2×2 image whose grayscale luminance values are
[10, 200, 127, 128], the pipeline produces exactly [0, 255, 0, 255]. -/
theorem pipeline_two_by_two :
    pipeline ⟨2, 2, [Pixel.gray 10, Pixel.gray 200, Pixel.gray 127, Pixel.gray 128]⟩ =
      ⟨2, 2, [0, 255, 0, 255]⟩ := by
  decide

/-- C3: the pipeline (with the resize step absent, as in the source,
where it is commented out) preserves the width, the height, and hence
the pixel count of the input image. -/
theorem pipeline_preserves_dimensions (img : Img) :
    (pipeline img).width = img.width ∧
      (pipeline img).height = img.height ∧
      (pipeline img).pixels.length = img.pixels.length := by
  refine ⟨rfl, rfl, ?_⟩
  simp [pipeline, pointThreshold, convertL]

/-- C4: thresholding is idempotent: applying the threshold step twice
to a grayscale buffer equals applying it once, and on a value that is
already binary (0 or 255) the threshold function is the identity. -/
theorem pointThreshold_idempotent (g : GrayImg) :
    pointThreshold (pointThreshold g) = pointThreshold g ∧
      ∀ x : Nat, x = 0 ∨ x = 255 → threshold x = x := by
  constructor
  · unfold pointThreshold
    simp [List.map_map, Function.comp, threshold_threshold]
  · intro x hx
    rcases hx with h | h <;> subst h <;> rfl

/-- Witness for C4 at a concrete buffer and a concrete binary value. -/
theorem pointThreshold_idempotent_witness :
    pointThreshold (pointThreshold ⟨1, 1, [200]⟩) = pointThreshold ⟨1, 1, [200]⟩ ∧
      threshold 255 = 255 :=
  ⟨(pointThreshold_idempotent ⟨1, 1, [200]⟩).1,
    (pointThreshold_idempotent ⟨1, 1, [200]⟩).2 255 (Or.inr rfl)⟩

/-- C5: the run is deterministic: two runs over file systems holding
identical content at the input path produce the same process outcome,
and whenever the run succeeds (so an output file is produced) the
content written at the output path is identical. -/
theorem runScript_deterministic (fs1 fs2 : String → Option FileData)
    (h : fs1 inputPath = fs2 inputPath) :
    (runScript fs1).1 = (runScript fs2).1 ∧
      ((runScript fs1).1 = Except.ok () →
        (runScript fs1).2 outputPath = (runScript fs2).2 outputPath) := by
  unfold runScript
  rw [h]
  cases hdec : decodePng (fs2 inputPath) <;> simp

/-- Witness for C5 at a concrete file system compared with itself. -/
theorem runScript_deterministic_witness :
    (runScript fsEx).1 = (runScript fsEx).1 ∧
      ((runScript fsEx).1 = Except.ok () →
        (runScript fsEx).2 outputPath = (runScript fsEx).2 outputPath) :=
  runScript_deterministic fsEx fsEx rfl

/-- C6: when the input file is absent or not a valid PNG, the load
fails, the error propagates as the process outcome, and the file system
is completely unchanged: no output file is created or modified. -/
theorem runScript_load_failure (fs : String → Option FileData)
    (h : decodePng (fs inputPath) = none) :
    (runScript fs).1 = Except.error "cannot identify image file" ∧
      (runScript fs).2 = fs := by
  unfold runScript
  rw [h]
  exact ⟨rfl, rfl⟩

/-- Witness for C6 at the empty file system. -/
theorem runScript_load_failure_witness :
    (runScript fsEmpty).1 = Except.error "cannot identify image file" ∧
      (runScript fsEmpty).2 = fsEmpty :=
  runScript_load_failure fsEmpty rfl

/-- C7: on an all-white grayscale input (every pixel is gray 255), the
pipeline outputs an all-255 image of the same dimensions. -/
theorem pipeline_all_white (img : Img)
    (h : ∀ p ∈ img.pixels, p = Pixel.gray 255) :
    (∀ v ∈ (pipeline img).pixels, v = 255) ∧
      (pipeline img).width = img.width ∧
      (pipeline img).height = img.height ∧
      (pipeline img).pixels.length = img.pixels.length := by
  refine ⟨?_, rfl, rfl, ?_⟩
  · intro v hv
    simp [pipeline, pointThreshold, convertL] at hv
    obtain ⟨p, hp, hval⟩ := hv
    rw [h p hp] at hval
    exact hval.symm
  · simp [pipeline, pointThreshold, convertL]

/-- Witness for C7 at a concrete all-white image. -/
theorem pipeline_all_white_witness :
    (∀ v ∈ (pipeline imgWhite).pixels, v = 255) ∧
      (pipeline imgWhite).width = imgWhite.width ∧
      (pipeline imgWhite).height = imgWhite.height ∧
      (pipeline imgWhite).pixels.length = imgWhite.pixels.length :=
  pipeline_all_white imgWhite (by decide)

/-- C8: the grayscale step is a pure function of the pixel: every valid
pixel of any source color mode (RGB, RGBA, or grayscale, channels in
0..255) is mapped to a single luminance value in [0, 255]. -/
theorem toGray_range (p : Pixel) (h : pixelValid p) : toGray p ≤ 255 := by
  cases p with
  | rgb r g b =>
      obtain ⟨hr, hg, hb⟩ := h
      exact luma_le_255 r g b hr hg hb
  | rgba r g b a =>
      obtain ⟨hr, hg, hb, _⟩ := h
      exact luma_le_255 r g b hr hg hb
  | gray v => exact h

/-- Witness for C8 at a concrete RGB pixel. -/
theorem toGray_range_witness : toGray (Pixel.rgb 255 255 255) ≤ 255 :=
  toGray_range (Pixel.rgb 255 255 255) (by decide)

/-- C9: every pixel value of the pipeline output is exactly 0 or 255:
no intermediate gray value appears in the written image, for any input. -/
theorem pipeline_output_binary (img : Img) (v : Nat)
    (h : v ∈ (pipeline img).pixels) : v = 0 ∨ v = 255 := by
  simp [pipeline, pointThreshold, convertL] at h
  obtain ⟨p, _, hval⟩ := h
  rw [← hval]
  exact threshold_eq_zero_or_255 (toGray p)

/-- Witness for C9 at a concrete image and output pixel. -/
theorem pipeline_output_binary_witness : (255 : Nat) = 0 ∨ (255 : Nat) = 255 :=
  pipeline_output_binary imgEx 255 (by decide)

/-- C10: on an input that is already 8-bit grayscale, the grayscale
conversion is the identity, so the pipeline output equals the threshold
function mapped directly over the input pixel values. -/
theorem pipeline_on_grayscale_input (w ht : Nat) (vs : List Nat) :
    pipeline ⟨w, ht, vs.map Pixel.gray⟩ = ⟨w, ht, vs.map threshold⟩ := by
  simp [pipeline, pointThreshold, convertL, List.map_map, Function.comp, toGray]

end PngToBwBmp
